import Mathlib

/-!
# Verification development for the node-banana workflow editor

Shallow embedding of the data model and the pure fragments of the
node-banana workflow editor: node default data (`createDefaultNodeData`),
the Replicate provider's capability inference (`inferCapabilities`),
the model-search dialog's fetch/selection logic (`fetchModelsStep`,
`handleSelectModel`), the video node's model-fetch error handling
(`videoFetchModelsResult`), workflow edge and cost records, and
spec-modelled components (history manager, split-grid child creation,
executor status transitions) whose implementation lives in the store
module that is not part of the inspected sources.
-/

namespace NodeBanana

/-- Boolean substring containment on character lists: `subOf pat s` is
true when `pat` occurs contiguously inside `s`.  Embeds the JavaScript
`String.prototype.includes` calls used by `inferCapabilities`. -/
def subOf (pat : List Char) : List Char → Bool
  | [] => pat.isEmpty
  | c :: rest => pat.isPrefixOf (c :: rest) || subOf pat rest

/-- Embedding of the JavaScript `s.includes(pat)` as `strIncludes s pat`. -/
def strIncludes (s pat : String) : Bool :=
  subOf pat.toList s.toList

/-- Model record returned by the Replicate API
(`ReplicateModel` in the Replicate provider source), restricted to the
fields the embedded functions read. -/
structure ReplicateModel where
  owner : String
  name : String
  description : Option String
  coverImageUrl : Option String
deriving DecidableEq, Repr

/-- Normalized model record (`ProviderModel` in `lib/providers/types`):
id, display name, description, provider identifier, capability list and
optional cover image. -/
structure ProviderModel where
  id : String
  name : String
  description : Option String
  provider : String
  capabilities : List String
  coverImage : Option String
deriving DecidableEq, Repr

/-- The fixed capability vocabulary of the provider layer:
text-to-image, image-to-image, text-to-video, image-to-video. -/
def capabilityValues : List String :=
  ["text-to-image", "image-to-image", "text-to-video", "image-to-video"]

/-- Character-wise lower-casing, embedding the JavaScript
`toLowerCase()` call on the model text. -/
def toLowerStr (s : String) : String :=
  String.mk (s.data.map Char.toLower)

/-- The lower-cased search text `inferCapabilities` scans: the model's
name and description joined by a space. -/
def searchTextOf (model : ReplicateModel) : String :=
  toLowerStr (model.name ++ " " ++ model.description.getD "")

/-- Embeds `inferCapabilities` from the Replicate provider source:
capabilities start as `["text-to-image"]`; image-to-image is appended
when the lower-cased name/description mentions img2img, image-to-image,
inpaint or controlnet; when it mentions video, animate or motion,
image-to-video is appended if it also mentions img2vid or
image-to-video, otherwise text-to-video.  The sequential pushes of the
source are rendered as list appends in push order. -/
def inferCapabilities (model : ReplicateModel) : List String :=
  ["text-to-image"]
    ++ (if strIncludes (searchTextOf model) "img2img"
          || strIncludes (searchTextOf model) "image-to-image"
          || strIncludes (searchTextOf model) "inpaint"
          || strIncludes (searchTextOf model) "controlnet" then
          ["image-to-image"]
        else [])
    ++ (if strIncludes (searchTextOf model) "video"
          || strIncludes (searchTextOf model) "animate"
          || strIncludes (searchTextOf model) "motion" then
          if strIncludes (searchTextOf model) "img2vid"
              || strIncludes (searchTextOf model) "image-to-video" then
            ["image-to-video"]
          else
            ["text-to-video"]
        else [])

/-- Embeds `mapToProviderModel` from the Replicate provider source: id is
`owner/name`, provider is `"replicate"`, capabilities come from
`inferCapabilities`. -/
def mapToProviderModel (model : ReplicateModel) : ProviderModel :=
  { id := model.owner ++ "/" ++ model.name
    name := model.name
    description := model.description
    provider := "replicate"
    capabilities := inferCapabilities model
    coverImage := model.coverImageUrl }

/-- Badge label per capability from `getCapabilityBadges` in the model
search dialog; capabilities outside the vocabulary keep an empty label
and produce no badge. -/
def badgeLabel (cap : String) : Option String :=
  if cap = "text-to-image" then some "txt→img"
  else if cap = "image-to-image" then some "img→img"
  else if cap = "text-to-video" then some "txt→vid"
  else if cap = "image-to-video" then some "img→vid"
  else none

/-- Node payload of the model carried by a freshly created generation
node (`SelectedModel` in the types module). -/
structure SelectedModel where
  provider : String
  modelId : String
  displayName : String
deriving DecidableEq, Repr

/-- Embeds `handleSelectModel` from the model search dialog: selecting a model
adds a node of the fixed type `"nanoBanana"` whose payload carries the
model's provider, id and display name.  The embedded result is the pair
(node type passed to `addNode`, selected-model payload). -/
def handleSelectModel (model : ProviderModel) : String × SelectedModel :=
  ("nanoBanana",
   { provider := model.provider
     modelId := model.id
     displayName := model.name })

/-- The node type vocabulary (`NodeType` in the types module), as listed
by `defaultNodeDimensions` and `createDefaultNodeData`. -/
inductive NodeType
  | imageInput
  | annotationNode
  | prompt
  | nanoBanana
  | generateVideo
  | llmGenerate
  | splitGrid
  | output
deriving DecidableEq, Repr

/-- Per-node execution status values of the code, as declared by the
node-data schema (enum idle, loading, success, error) and visible in the
literals of `createDefaultNodeData` (idle) and of the generate-video
node component (loading, error). -/
def nodeStatusValues : List String :=
  ["idle", "loading", "success", "error"]

/-- Persisted generate-image defaults
(`loadGenerateImageDefaults` in the store's localStorage utilities):
aspect ratio, resolution, model identifier and the Google-search flag. -/
structure GenerateImageDefaults where
  aspectRatio : String
  resolution : String
  model : String
  useGoogleSearch : Bool
deriving DecidableEq, Repr

/-- The hard-coded fallback of `loadGenerateImageDefaults`, returned
when nothing is stored. -/
def defaultGenerateImageDefaults : GenerateImageDefaults :=
  { aspectRatio := "1:1", resolution := "1K",
    model := "nano-banana-pro", useGoogleSearch := false }

/-- Payload of an image-input node (`ImageInputNodeData`). -/
structure ImageInputNodeData where
  image : Option String
  filename : Option String
  dimensions : Option (Nat × Nat)
deriving DecidableEq, Repr

/-- Payload of an annotation node (`AnnotationNodeData`). -/
structure AnnotationNodeData where
  sourceImage : Option String
  annotations : List String
  outputImage : Option String
deriving DecidableEq, Repr

/-- Payload of a prompt node (`PromptNodeData`). -/
structure PromptNodeData where
  prompt : String
deriving DecidableEq, Repr

/-- Payload of the generate-image node (`NanoBananaNodeData`), with output
image, status/error and the image history container. -/
structure NanoBananaNodeData where
  inputImages : List String
  inputPrompt : Option String
  outputImage : Option String
  aspectRatio : String
  resolution : String
  model : String
  selectedModel : SelectedModel
  useGoogleSearch : Bool
  status : String
  error : Option String
  imageHistory : List String
  selectedHistoryIndex : Nat
deriving DecidableEq, Repr

/-- Payload of the generate-video node (`GenerateVideoNodeData`). -/
structure GenerateVideoNodeData where
  inputImages : List String
  inputPrompt : Option String
  outputVideo : Option String
  selectedModel : Option SelectedModel
  status : String
  error : Option String
  videoHistory : List String
  selectedVideoHistoryIndex : Nat
deriving DecidableEq, Repr

/-- Payload of an llm-generate node (`LLMGenerateNodeData`). -/
structure LLMGenerateNodeData where
  inputPrompt : Option String
  inputImages : List String
  outputText : Option String
  provider : String
  model : String
  temperature : ℚ
  maxTokens : Nat
  status : String
  error : Option String
deriving DecidableEq, Repr

/-- Generation settings block of a split-grid node. -/
structure SplitGridGenerateSettings where
  aspectRatio : String
  resolution : String
  model : String
  useGoogleSearch : Bool
deriving DecidableEq, Repr

/-- Payload of a split-grid node (`SplitGridNodeData`): source image, target count, grid shape, owned
child node ids, configuration flag, status and error. -/
structure SplitGridNodeData where
  sourceImage : Option String
  targetCount : Nat
  defaultPrompt : String
  generateSettings : SplitGridGenerateSettings
  childNodeIds : List String
  gridRows : Nat
  gridCols : Nat
  isConfigured : Bool
  status : String
  error : Option String
deriving DecidableEq, Repr

/-- Payload of an output node (`OutputNodeData`). -/
structure OutputNodeData where
  image : Option String
deriving DecidableEq, Repr

/-- Union of the per-type node payloads (`WorkflowNodeData`). -/
inductive WorkflowNodeData
  | imageInput (d : ImageInputNodeData)
  | annotationNode (d : AnnotationNodeData)
  | prompt (d : PromptNodeData)
  | nanoBanana (d : NanoBananaNodeData)
  | generateVideo (d : GenerateVideoNodeData)
  | llmGenerate (d : LLMGenerateNodeData)
  | splitGrid (d : SplitGridNodeData)
  | output (d : OutputNodeData)
deriving DecidableEq, Repr

/-- Embeds `createDefaultNodeData` from the store utilities: the default
payload per node type.  The generate-image branch reads
`loadGenerateImageDefaults`, passed here as the `defaults` argument. -/
def createDefaultNodeData (defaults : GenerateImageDefaults) :
    NodeType → WorkflowNodeData
  | .imageInput =>
      .imageInput { image := none, filename := none, dimensions := none }
  | .annotationNode =>
      .annotationNode { sourceImage := none, annotations := [], outputImage := none }
  | .prompt =>
      .prompt { prompt := "" }
  | .nanoBanana =>
      let modelDisplayName :=
        if defaults.model = "nano-banana" then "Nano Banana" else "Nano Banana Pro"
      .nanoBanana
        { inputImages := []
          inputPrompt := none
          outputImage := none
          aspectRatio := defaults.aspectRatio
          resolution := defaults.resolution
          model := defaults.model
          selectedModel :=
            { provider := "gemini", modelId := defaults.model,
              displayName := modelDisplayName }
          useGoogleSearch := defaults.useGoogleSearch
          status := "idle"
          error := none
          imageHistory := []
          selectedHistoryIndex := 0 }
  | .generateVideo =>
      .generateVideo
        { inputImages := []
          inputPrompt := none
          outputVideo := none
          selectedModel := none
          status := "idle"
          error := none
          videoHistory := []
          selectedVideoHistoryIndex := 0 }
  | .llmGenerate =>
      .llmGenerate
        { inputPrompt := none
          inputImages := []
          outputText := none
          provider := "google"
          model := "gemini-3-flash-preview"
          temperature := 7 / 10
          maxTokens := 8192
          status := "idle"
          error := none }
  | .splitGrid =>
      .splitGrid
        { sourceImage := none
          targetCount := 6
          defaultPrompt := ""
          generateSettings :=
            { aspectRatio := "1:1", resolution := "1K",
              model := "nano-banana-pro", useGoogleSearch := false }
          childNodeIds := []
          gridRows := 2
          gridCols := 3
          isConfigured := false
          status := "idle"
          error := none }
  | .output =>
      .output { image := none }

/-- The status field of a node payload, when its node type has one. -/
def statusOf : WorkflowNodeData → Option String
  | .imageInput _ => none
  | .annotationNode _ => none
  | .prompt _ => none
  | .nanoBanana d => some d.status
  | .generateVideo d => some d.status
  | .llmGenerate d => some d.status
  | .splitGrid d => some d.status
  | .output _ => none

/-- Modelled from the spec: the Executor's per-node status transitions
live in the store module, which is not part of the inspected sources.
Dispatching a node moves it from `idle` (or, on a re-run, from
`success`/`error`) into the code's single in-flight status `loading`;
a finished call moves `loading` to `success` or `error`. -/
inductive StatusStep : String → String → Prop
  | dispatch : StatusStep "idle" "loading"
  | finishSuccess : StatusStep "loading" "success"
  | finishError : StatusStep "loading" "error"
  | rerunAfterSuccess : StatusStep "success" "loading"
  | rerunAfterError : StatusStep "error" "loading"

/-- Per-node output history: the ordered list of produced outputs and
the selected index, matching the `imageHistory` / `selectedHistoryIndex`
(resp. `videoHistory` / `selectedVideoHistoryIndex`) fields initialised
by `createDefaultNodeData` to the empty list and index 0. -/
structure NodeHistory (α : Type) where
  entries : List α
  selectedIndex : Nat
deriving DecidableEq, Repr

/-- Modelled from the spec: the HistoryManager's `select` operation is
implemented in the store module, which is not part of the inspected
sources; it moves the selected pointer without mutating the sequence. -/
def selectHistory {α : Type} (h : NodeHistory α) (i : Nat) : NodeHistory α :=
  { h with selectedIndex := i }

/-- Modelled from the spec: the HistoryManager's `append` operation is
implemented in the store module, which is not part of the inspected
sources; it adds the output at the end of the ordered sequence and
selects it. -/
def appendHistory {α : Type} (h : NodeHistory α) (out : α) : NodeHistory α :=
  { entries := h.entries ++ [out], selectedIndex := h.entries.length }

/-- A graph node as the split-grid step sees it: id, node type, and for
split-grid children the id of the owning split-grid parent (the code
tracks ownership through the parent's `childNodeIds` list). -/
structure GraphNode where
  id : String
  type : NodeType
  ownerSplitGrid : Option String
deriving DecidableEq, Repr

/-- The child nodes a split-grid run creates: `rows × cols` nodes of
type `nanoBanana` (the generate-image node type), owned by the parent. -/
def splitGridChildren (parent : String) (rows cols : Nat) : List GraphNode :=
  (List.range (rows * cols)).map fun i =>
    { id := parent ++ "-child-" ++ toString i
      type := .nanoBanana
      ownerSplitGrid := some parent }

/-- Modelled from the spec: the split-grid execution step is implemented
in the store module, which is not part of the inspected sources; on a
successful run it deletes the children it created previously (those
recorded as owned by this parent) and recreates `rows × cols` fresh
generate-image children wired from its output. -/
def runSplitGrid (nodes : List GraphNode) (parent : String)
    (rows cols : Nat) : List GraphNode :=
  nodes.filter (fun n => n.ownerSplitGrid ≠ some parent)
    ++ splitGridChildren parent rows cols

/-- Outcome of one `/api/models` request made by the model search
dialog's `fetchModels`: a successful response with a model list, an
unsuccessful response body with an optional error message, an abort of
the superseded request, or a network failure. -/
inductive FetchOutcome (α : Type)
  | ok (models : List α)
  | apiError (msg : Option String)
  | abortError
  | networkError (msg : String)
deriving DecidableEq, Repr

/-- The dialog component state written by `fetchModels`: the model list,
the loading flag and the error field. -/
structure DialogFetchState (α : Type) where
  models : List α
  isLoading : Bool
  error : Option String
deriving DecidableEq, Repr

/-- Embedding of the JavaScript string disjunction `a || b`: the
fallback `b` is taken when `a` is absent or falsy, and for strings the
empty string is falsy. -/
def jsOrElse (a : Option String) (b : String) : String :=
  match a with
  | some m => if m = "" then b else m
  | none => b

/-- Embeds `fetchModels` from the model search dialog, as a state transformer
over the request outcome: it sets loading and clears the error up
front; on success it stores the models; on an unsuccessful body it
stores the body's error, falling back over the JavaScript `||` to
"Failed to fetch models" when that error is absent or empty, and clears
the models; on an `AbortError` it returns early, leaving models and
error untouched; on any other exception it stores the message and
clears the models; the `finally` block always clears the loading
flag. -/
def fetchModelsStep {α : Type} (s : DialogFetchState α)
    (outcome : FetchOutcome α) : DialogFetchState α :=
  let s1 : DialogFetchState α := { s with isLoading := true, error := none }
  let s2 : DialogFetchState α :=
    match outcome with
    | .ok ms => { s1 with models := ms }
    | .apiError msg =>
        { s1 with error := some (jsOrElse msg "Failed to fetch models"),
                  models := [] }
    | .abortError => s1
    | .networkError msg => { s1 with error := some msg, models := [] }
  { s2 with isLoading := false }

/-- Modelled from the spec: run/cancellation handling lives in the store
module, which is not part of the inspected sources; cancelling the
in-flight call of a node (node or edge deleted, run stopped) marks the
node `idle`, whatever status it held. -/
def cancelNodeStatus (_current : String) : String := "idle"

/-- Result state written by the generate-video node's `fetchModels`:
the fetched model list and the fetch error field. -/
structure ModelsFetchResult (α : Type) where
  externalModels : List α
  modelsFetchError : Option String
deriving DecidableEq, Repr

/-- The response-handling branch of `fetchModels` in the generate-video
node component: on `response.ok` the models are stored and the error
cleared; otherwise the models are cleared and the error is the response
body's `error`, falling back over the JavaScript `||` to
"Failed to load models (status)" when that error is absent or empty,
except that a 401 from the replicate provider is replaced by the fixed
message "Invalid Replicate API key. Check your settings.". -/
def videoFetchModelsResult {α : Type} (provider : String) (respOk : Bool)
    (status : Nat) (models : List α) (errorDataError : Option String) :
    ModelsFetchResult α :=
  if respOk then
    { externalModels := models, modelsFetchError := none }
  else
    let errorMsg :=
      jsOrElse errorDataError
        ("Failed to load models (" ++ toString status ++ ")")
    { externalModels := []
      modelsFetchError :=
        some (if provider = "replicate" && status == 401 then
                "Invalid Replicate API key. Check your settings."
              else errorMsg) }

/-- Embeds `WorkflowCostData` from the workflow types module: the per-workflow
cost record with exactly the fields workflowId, incurredCost (a number)
and lastUpdated (a millisecond timestamp). -/
structure WorkflowCostData where
  workflowId : String
  incurredCost : ℚ
  lastUpdated : Nat
deriving DecidableEq, Repr

/-- Modelled from the spec: the CostEstimator's `recordIncurred`
aggregate operation lives in the store module, which is not part of the
inspected sources; it accumulates an incurred cost into the workflow's
record and refreshes the timestamp, preserving the record format. -/
def recordIncurred (c : WorkflowCostData) (cost : ℚ) (now : Nat) :
    WorkflowCostData :=
  { c with incurredCost := c.incurredCost + cost, lastUpdated := now }

/-- Embeds `WorkflowEdgeData` from the workflow types module: the per-edge data
record whose single declared field is the optional boolean `hasPause`. -/
structure WorkflowEdgeData where
  hasPause : Option Bool
deriving DecidableEq, Repr

/-- Embeds `WorkflowEdge`: the React Flow edge record specialised to
`WorkflowEdgeData` — id, source node id with optional source handle,
target node id with optional target handle, and optional data. -/
structure WorkflowEdge where
  id : String
  source : String
  sourceHandle : Option String
  target : String
  targetHandle : Option String
  data : Option WorkflowEdgeData
deriving DecidableEq, Repr

/-- The pause flag actually carried by an edge record, when present. -/
def edgePausedFlag (e : WorkflowEdge) : Option Bool :=
  e.data.bind (·.hasPause)

/-- An edge is treated as paused exactly when it carries
`hasPause = true`; an absent flag counts as unpaused. -/
def edgeIsPaused (e : WorkflowEdge) : Bool :=
  (edgePausedFlag e).getD false

/-- Modelled from the spec: `dependenciesOf` is implemented in the store
module, which is not part of the inspected sources; it returns the
source node ids feeding non-paused edges into the given node, so a
paused edge contributes neither data nor readiness. -/
def dependenciesOf (edges : List WorkflowEdge) (nodeId : String) :
    List String :=
  (edges.filter fun e => e.target == nodeId && !edgeIsPaused e).map (·.source)

/-! ## Theorems -/

/-- C1 (counterexample): the claimed state machine ranges over
idle, queued, running, success, error, but the code's status enum is
idle, loading, success, error: the in-flight status `loading` is not
one of the claimed states, and neither `queued` nor `running` is a
status value of the code. -/
theorem C1_counterexample :
    "loading" ∈ nodeStatusValues ∧
    "loading" ∉ ["idle", "queued", "running", "success", "error"] ∧
    "queued" ∉ nodeStatusValues ∧
    "running" ∉ nodeStatusValues := by decide

/-- C1 (amended): every node's execution status takes values in the
code's state machine idle → loading → in the set idle, loading,
success, error: `createDefaultNodeData` initialises every stateful node
type to `idle`, the executor's transition relation stays inside the
code's status vocabulary, a dispatched node becomes `loading` before
finishing in `success` or `error`, and `success`/`error` are
re-enterable (a re-run moves the node back to `loading`). -/
theorem C1_status_machine (d : GenerateImageDefaults) (s t : String)
    (h : StatusStep s t) :
    statusOf (createDefaultNodeData d .nanoBanana) = some "idle" ∧
    statusOf (createDefaultNodeData d .generateVideo) = some "idle" ∧
    statusOf (createDefaultNodeData d .llmGenerate) = some "idle" ∧
    statusOf (createDefaultNodeData d .splitGrid) = some "idle" ∧
    s ∈ nodeStatusValues ∧ t ∈ nodeStatusValues ∧
    StatusStep "idle" "loading" ∧
    StatusStep "loading" "success" ∧ StatusStep "loading" "error" ∧
    StatusStep "success" "loading" ∧ StatusStep "error" "loading" := by
  refine ⟨rfl, rfl, rfl, rfl, ?_, ?_, .dispatch, .finishSuccess, .finishError,
    .rerunAfterSuccess, .rerunAfterError⟩ <;> cases h <;> decide

/-- C1 (witness): the status machine theorem at the dispatch step from
`idle` to `loading` with the stored generate-image defaults. -/
theorem C1_status_machine_witness :
    statusOf (createDefaultNodeData defaultGenerateImageDefaults .nanoBanana)
      = some "idle" ∧
    statusOf (createDefaultNodeData defaultGenerateImageDefaults .generateVideo)
      = some "idle" ∧
    statusOf (createDefaultNodeData defaultGenerateImageDefaults .llmGenerate)
      = some "idle" ∧
    statusOf (createDefaultNodeData defaultGenerateImageDefaults .splitGrid)
      = some "idle" ∧
    "idle" ∈ nodeStatusValues ∧ "loading" ∈ nodeStatusValues ∧
    StatusStep "idle" "loading" ∧
    StatusStep "loading" "success" ∧ StatusStep "loading" "error" ∧
    StatusStep "success" "loading" ∧ StatusStep "error" "loading" :=
  C1_status_machine defaultGenerateImageDefaults "idle" "loading" .dispatch

/-- C2: history is append-only — `selectHistory` never removes or
reorders entries, and appending after selecting an older entry
strictly increases the history length by one, places the new output
after the end of the sequence without truncation, and moves the
selected pointer to the new tail. -/
theorem C2_history_append_only {α : Type} (h : NodeHistory α) (i : Nat)
    (out : α) :
    (selectHistory h i).entries = h.entries ∧
    (appendHistory (selectHistory h i) out).entries.length
      = h.entries.length + 1 ∧
    (appendHistory (selectHistory h i) out).entries = h.entries ++ [out] ∧
    (appendHistory (selectHistory h i) out).selectedIndex
      = h.entries.length := by
  refine ⟨rfl, ?_, rfl, rfl⟩
  simp [appendHistory, selectHistory]

/-- C3: a successful split-grid run creates exactly rows × cols child
nodes of the generate-image type (`nanoBanana`) owned by the parent,
removes every previously created child (no orphans: running again
replaces children 1:1, and the mutation is idempotent per run), and
leaves every node not owned by the parent untouched. -/
theorem C3_splitgrid_children (nodes : List GraphNode) (parent : String)
    (rows cols : Nat) :
    ((runSplitGrid nodes parent rows cols).filter
        (fun n => n.ownerSplitGrid = some parent)).length = rows * cols ∧
    (∀ n ∈ runSplitGrid nodes parent rows cols,
        n.ownerSplitGrid = some parent → n.type = .nanoBanana) ∧
    runSplitGrid (runSplitGrid nodes parent rows cols) parent rows cols
      = runSplitGrid nodes parent rows cols ∧
    (runSplitGrid nodes parent rows cols).filter
        (fun n => n.ownerSplitGrid ≠ some parent)
      = nodes.filter (fun n => n.ownerSplitGrid ≠ some parent) := by
  have hchild : ∀ n ∈ splitGridChildren parent rows cols,
      n.ownerSplitGrid = some parent ∧ n.type = NodeType.nanoBanana := by
    intro n hn
    simp only [splitGridChildren, List.mem_map, List.mem_range] at hn
    obtain ⟨i, _, rfl⟩ := hn
    exact ⟨rfl, rfl⟩
  refine ⟨?_, ?_, ?_, ?_⟩
  · rw [runSplitGrid, List.filter_append]
    have h1 : (nodes.filter fun n => n.ownerSplitGrid ≠ some parent).filter
        (fun n => n.ownerSplitGrid = some parent) = [] := by
      rw [List.filter_filter]
      apply List.filter_eq_nil_iff.mpr
      intro n _
      simp
    have h2 : (splitGridChildren parent rows cols).filter
        (fun n => n.ownerSplitGrid = some parent)
        = splitGridChildren parent rows cols := by
      apply List.filter_eq_self.mpr
      intro n hn
      simpa using (hchild n hn).1
    rw [h1, h2]
    simp [splitGridChildren]
  · intro n hn _
    rw [runSplitGrid, List.mem_append] at hn
    rcases hn with hn | hn
    · rw [List.mem_filter] at hn
      simp_all
    · exact (hchild n hn).2
  · rw [runSplitGrid, runSplitGrid, List.filter_append]
    have h2 : (splitGridChildren parent rows cols).filter
        (fun n => n.ownerSplitGrid ≠ some parent) = [] := by
      apply List.filter_eq_nil_iff.mpr
      intro n hn
      simpa using (hchild n hn).1
    rw [h2, List.filter_filter]
    simp
  · rw [runSplitGrid, List.filter_append]
    have h2 : (splitGridChildren parent rows cols).filter
        (fun n => n.ownerSplitGrid ≠ some parent) = [] := by
      apply List.filter_eq_nil_iff.mpr
      intro n hn
      simpa using (hchild n hn).1
    rw [h2, List.filter_filter]
    simp

/-- C4: an aborted in-flight model fetch is discarded and never shown
as a failure — after the `AbortError` early return the error field is
not written (it stays cleared), the previously shown models are kept
(the aborted result is discarded), loading ends, and the cancelled
node is marked `idle`, never `error`. -/
theorem C4_cancellation_discards {α : Type} (s : DialogFetchState α)
    (st : String) :
    (fetchModelsStep s FetchOutcome.abortError).error = none ∧
    (fetchModelsStep s FetchOutcome.abortError).models = s.models ∧
    (fetchModelsStep s FetchOutcome.abortError).isLoading = false ∧
    cancelNodeStatus st = "idle" ∧ cancelNodeStatus st ≠ "error" := by
  refine ⟨rfl, rfl, rfl, rfl, ?_⟩
  simp [cancelNodeStatus]

/-- C5 (counterexample): a 401 from the replicate provider is not
surfaced verbatim — the response body's error message "Unauthorized"
is replaced by the fixed message
"Invalid Replicate API key. Check your settings.". -/
theorem C5_counterexample :
    (videoFetchModelsResult "replicate" false 401 ([] : List Unit)
        (some "Unauthorized")).modelsFetchError
      = some "Invalid Replicate API key. Check your settings." ∧
    (videoFetchModelsResult "replicate" false 401 ([] : List Unit)
        (some "Unauthorized")).modelsFetchError
      ≠ some "Unauthorized" := by decide

/-- C5 (amended): when a model fetch fails, a non-empty error message
from the response body is surfaced verbatim to the error field, except
for a 401 from the replicate provider, which is replaced by the fixed
guidance message "Invalid Replicate API key. Check your settings."
(an absent or empty body message falls back over the JavaScript `||`
to "Failed to load models (status)"); in all cases the call itself is
made once and recovery is only user-triggered. -/
theorem C5_auth_error_message {α : Type} (provider : String) (status : Nat)
    (models : List α) (msg : String)
    (hnot : ¬(provider = "replicate" ∧ status = 401)) (hne : msg ≠ "") :
    (videoFetchModelsResult provider false status models
        (some msg)).modelsFetchError = some msg ∧
    (videoFetchModelsResult provider false status models
        none).modelsFetchError
      = some (if provider = "replicate" && status == 401 then
                "Invalid Replicate API key. Check your settings."
              else "Failed to load models (" ++ toString status ++ ")") ∧
    (videoFetchModelsResult "replicate" false 401 models
        (some msg)).modelsFetchError
      = some "Invalid Replicate API key. Check your settings." := by
  have hb : (decide (provider = "replicate") && (status == 401)) = false := by
    by_cases h1 : provider = "replicate"
    · by_cases h2 : status = 401
      · exact absurd ⟨h1, h2⟩ hnot
      · simp [h1, h2]
    · simp [h1]
  refine ⟨?_, ?_, ?_⟩
  · simp [videoFetchModelsResult, jsOrElse, hb, hne]
  · simp [videoFetchModelsResult, jsOrElse]
  · simp [videoFetchModelsResult]

/-- C5 (witness): the amended message theorem at a 500 from the fal
provider with body message "boom", and a 401 from replicate. -/
theorem C5_auth_error_message_witness :
    (videoFetchModelsResult "fal" false 500 ([] : List Unit)
        (some "boom")).modelsFetchError = some "boom" ∧
    (videoFetchModelsResult "fal" false 500 ([] : List Unit)
        none).modelsFetchError
      = some (if "fal" = "replicate" && (500 : Nat) == 401 then
                "Invalid Replicate API key. Check your settings."
              else "Failed to load models (" ++ toString (500 : Nat) ++ ")") ∧
    (videoFetchModelsResult "replicate" false 401 ([] : List Unit)
        (some "boom")).modelsFetchError
      = some "Invalid Replicate API key. Check your settings." :=
  C5_auth_error_message "fal" 500 ([] : List Unit) "boom" (by decide) (by decide)

/-- C6: every capability the Replicate adapter attaches to a model lies
in the fixed four-element set text-to-image, image-to-image,
text-to-video, image-to-video. -/
theorem C6_capabilities_closed (model : ReplicateModel) (c : String)
    (hc : c ∈ (mapToProviderModel model).capabilities) :
    c ∈ capabilityValues := by
  simp only [mapToProviderModel] at hc
  unfold inferCapabilities at hc
  split_ifs at hc <;> simp_all [capabilityValues] <;> tauto

/-- C6 (witness): the capability-closure theorem applied to a concrete
model whose description mentions video. -/
theorem C6_capabilities_closed_witness :
    "text-to-video" ∈ capabilityValues :=
  C6_capabilities_closed
    { owner := "acme", name := "dreamer",
      description := some "animate a scene", coverImageUrl := none }
    "text-to-video" (by decide)

/-- C7: the per-workflow cost record consists of exactly the fields
workflowId, incurredCost (a number) and lastUpdated (a timestamp) —
every record is determined by those three fields — and the aggregate
`recordIncurred` operation reads and writes records of exactly this
shape. -/
theorem C7_cost_record_format (c : WorkflowCostData) (cost : ℚ) (now : Nat) :
    c = { workflowId := c.workflowId, incurredCost := c.incurredCost,
          lastUpdated := c.lastUpdated } ∧
    (recordIncurred c cost now).workflowId = c.workflowId ∧
    (recordIncurred c cost now).incurredCost = c.incurredCost + cost ∧
    (recordIncurred c cost now).lastUpdated = now :=
  ⟨rfl, rfl, rfl, rfl⟩

/-- C8 (counterexample): an edge record need not carry a boolean paused
flag — the pause field is the optional `hasPause`, and a well-formed
edge with absent data (or data without the flag) carries no boolean
value for it. -/
theorem C8_counterexample :
    edgePausedFlag
      { id := "e1", source := "a", sourceHandle := some "image",
        target := "b", targetHandle := some "image", data := none } = none ∧
    edgePausedFlag
      { id := "e2", source := "a", sourceHandle := some "image",
        target := "b", targetHandle := some "image",
        data := some { hasPause := none } } = none := ⟨rfl, rfl⟩

/-- C8 (amended): every edge record carries an optional boolean
`hasPause` flag alongside its id, source node id + handle and target
node id + handle (a record is exactly those fields), an absent flag
counts as unpaused, and readiness propagates to a node only over edges
that are not paused: every dependency source comes from an edge whose
pause flag is not set to true, so a paused edge, though structurally
present, contributes no dependency. -/
theorem C8_paused_edge_blocks (edges : List WorkflowEdge) (nodeId s : String)
    (hs : s ∈ dependenciesOf edges nodeId) :
    (∃ e, e ∈ edges ∧ e.target = nodeId ∧ edgeIsPaused e = false
        ∧ e.source = s) ∧
    (∀ e : WorkflowEdge,
        e = { id := e.id, source := e.source, sourceHandle := e.sourceHandle,
              target := e.target, targetHandle := e.targetHandle,
              data := e.data }) := by
  refine ⟨?_, fun e => rfl⟩
  simp only [dependenciesOf, List.mem_map, List.mem_filter,
    Bool.and_eq_true, beq_iff_eq, Bool.not_eq_true'] at hs
  obtain ⟨e, ⟨he, ht, hp⟩, hsrc⟩ := hs
  exact ⟨e, he, ht, hp, hsrc⟩

/-- C8 (witness): the amended theorem on a two-edge graph in which the
edge from node a is unpaused and the edge from node c is paused; only
node a feeds the target. -/
theorem C8_paused_edge_blocks_witness :
    (∃ e, e ∈
        [({ id := "e1", source := "a", sourceHandle := some "image",
            target := "b", targetHandle := some "image",
            data := some { hasPause := some false } } : WorkflowEdge),
         ({ id := "e2", source := "c", sourceHandle := some "image",
            target := "b", targetHandle := some "text",
            data := some { hasPause := some true } } : WorkflowEdge)] ∧
        e.target = "b" ∧ edgeIsPaused e = false ∧ e.source = "a") ∧
    (∀ e : WorkflowEdge,
        e = { id := e.id, source := e.source, sourceHandle := e.sourceHandle,
              target := e.target, targetHandle := e.targetHandle,
              data := e.data }) :=
  C8_paused_edge_blocks
    [{ id := "e1", source := "a", sourceHandle := some "image",
       target := "b", targetHandle := some "image",
       data := some { hasPause := some false } },
     { id := "e2", source := "c", sourceHandle := some "image",
       target := "b", targetHandle := some "text",
       data := some { hasPause := some true } }]
    "b" "a" (by decide)

/-- C9: selecting any model in the model search dialog adds a node of
the single fixed type `"nanoBanana"` carrying the model's provider, id
and display name, and the created node type does not depend on the
model's capability list. -/
theorem C9_select_model_fixed_type (model : ProviderModel)
    (caps : List String) :
    (handleSelectModel model).1 = "nanoBanana" ∧
    (handleSelectModel model).2
      = { provider := model.provider, modelId := model.id,
          displayName := model.name } ∧
    handleSelectModel { model with capabilities := caps }
      = handleSelectModel model :=
  ⟨rfl, rfl, rfl⟩

/-- C10: the capability list the Replicate adapter infers always
contains text-to-image, whatever the model's name and description. -/
theorem C10_always_text_to_image (model : ReplicateModel) :
    "text-to-image" ∈ inferCapabilities model := by
  unfold inferCapabilities
  split_ifs <;> simp

end NodeBanana
